import Mathlib

/-!
Verification of the health-reporting core of the Cilium daemon
(daemon status module: aggregate status store, probe update sinks,
priority rollup, Kubernetes version memoizer, backoff interval policy).

The definitions below are a shallow embedding of the Go source:

- the `models` namespace mirrors the API model structures that the status
  module reads and writes (pointer fields become `Option`, nil slices become
  `Option (List _)` so that an unset list is distinguishable from an empty
  one, and payload structures whose contents the module never inspects are
  modelled as opaque `Unit` abbreviations);
- `status.Status` mirrors the collector's per-probe result
  (`Data interface\x7b\x7d` becomes the tagged union `StatusData`, whose
  checked type assertions become constructor matches; `Err error` becomes
  `Option String`);
- each probe's `OnStatusUpdate` closure from `startStatusCollector` becomes
  a pure state transformer on `models.StatusResponse` (the mutex acquire and
  release around each body is concurrency plumbing with no value-level
  content and is dropped);
- `getStatus` becomes a pure function of the daemon inputs it reads: the
  `brief` and `requireK8sConnectivity` flags, `d.clientset.IsEnabled()`,
  the stale-probe map from `GetStaleProbes` (a list of name and start-time
  pairs, times as naturals), the version banner string, and the live
  `d.statusResponse`; the Go `switch` becomes a first-match cascade of
  arm functions;
- the `k8sVersion` cache and `getK8sStatus` become pure functions of the
  cache contents, the clock (naturals, in seconds), the last successful
  apiserver interaction time, and the would-be result of the live
  `ServerVersion()` call; `getK8sStatus` additionally returns the updated
  cache and a flag recording whether the live query was issued.
-/

namespace models

/-- Mirrors models.StatusState: the string enum "ok", "warning",
"failure", "disabled". -/
inductive StatusState where
  | ok
  | warning
  | failure
  | disabled
deriving DecidableEq, Repr

/-- Mirrors models.Status (the fields the status module uses). -/
structure Status where
  State : StatusState
  Msg : String
deriving DecidableEq, Repr

/-- Mirrors models.K8sStatus (the fields the status module uses). -/
structure K8sStatus where
  State : StatusState
  Msg : String
  K8sAPIVersions : List String
deriving DecidableEq, Repr

/-- Mirrors models.ControllerStatusStatus (only the field the brief
projection inspects). -/
structure ControllerStatusStatus where
  LastFailureMsg : String
deriving DecidableEq, Repr

/-- Mirrors models.ControllerStatus: Status is a pointer in Go, hence an
Option here. -/
structure ControllerStatus where
  Name : String
  Status : Option ControllerStatusStatus
deriving DecidableEq, Repr

/-- Mirrors models.ClusterStatus (the fields the status module uses:
Self, written by the cluster probe, and CiliumHealth, written by the
cilium-health probe). -/
structure ClusterStatus where
  Self : String
  CiliumHealth : Option Status
deriving DecidableEq, Repr

/-- Opaque payloads: the status module stores these wholesale and never
inspects their contents, so they are modelled as unit types. -/
abbrev IPAMStatus := Unit

/-- Opaque payload, see IPAMStatus. -/
abbrev MonitorStatus := Unit

/-- Opaque payload, see IPAMStatus. -/
abbrev ProxyStatus := Unit

/-- Opaque payload, see IPAMStatus. -/
abbrev ClusterMeshStatus := Unit

/-- Opaque payload, see IPAMStatus. -/
abbrev HubbleStatus := Unit

/-- Opaque payload, see IPAMStatus. -/
abbrev EncryptionStatus := Unit

/-- Opaque payload, see IPAMStatus. -/
abbrev KubeProxyReplacementStatus := Unit

/-- Mirrors the fields of models.StatusResponse that the probes and the
rollup in this module read or write. Go pointer fields become Options
(nil = none); Controllers is a Go slice whose nil-ness is checked by the
brief projection, hence Option (List _); Stale is the map probe-name to
run-start time, with timestamps as naturals. -/
structure StatusResponse where
  Kvstore : Option Status := none
  ContainerRuntime : Option Status := none
  Kubernetes : Option K8sStatus := none
  Cilium : Option Status := none
  Cluster : Option ClusterStatus := none
  Controllers : Option (List ControllerStatus) := none
  Ipam : Option IPAMStatus := none
  NodeMonitor : Option MonitorStatus := none
  Proxy : Option ProxyStatus := none
  ClusterMesh : Option ClusterMeshStatus := none
  Hubble : Option HubbleStatus := none
  Encryption : Option EncryptionStatus := none
  KubeProxyReplacement : Option KubeProxyReplacementStatus := none
  AuthCertificateProvider : Option Status := none
  CniFile : Option Status := none
  Stale : List (String × Nat) := []
deriving DecidableEq, Repr

/-- The zero value of models.StatusResponse: the aggregate store is
allocated empty before the collector starts. -/
def StatusResponse.empty : StatusResponse := {}

end models

/-- The dynamic type of a probe result's Data field (Go interface value).
The null constructor is the nil interface; the others are the concrete
pointer types the fourteen sinks downcast to. -/
inductive StatusData where
  | null
  | status (s : models.Status)
  | k8sStatus (s : models.K8sStatus)
  | ipamStatus (s : models.IPAMStatus)
  | monitorStatus (s : models.MonitorStatus)
  | clusterStatus (s : models.ClusterStatus)
  | proxyStatus (s : models.ProxyStatus)
  | controllerStatuses (cs : List models.ControllerStatus)
  | clusterMeshStatus (s : models.ClusterMeshStatus)
  | hubbleStatus (s : models.HubbleStatus)
  | encryptionStatus (s : models.EncryptionStatus)
  | kubeProxyReplacement (s : models.KubeProxyReplacementStatus)
deriving DecidableEq

namespace status

/-- Mirrors status.Status, the result handed to a probe's OnStatusUpdate
sink: Data is the opaque payload, Err the optional error. -/
structure Status where
  Data : StatusData
  Err : Option String
deriving DecidableEq

end status

/-- Sink of the "kvstore" probe (OnStatusUpdate): an errored result is
recorded as a Failure status with the error text; otherwise the payload
is stored if it downcasts to models.Status, and ignored if not. -/
def kvstoreOnStatusUpdate (st : status.Status) (r : models.StatusResponse) :
    models.StatusResponse :=
  match st.Err with
  | some e => { r with Kvstore := some { State := .failure, Msg := e } }
  | none =>
    match st.Data with
    | .status s => { r with Kvstore := some s }
    | _ => r

/-- Sink of the "kubernetes" probe: an errored result is recorded as a
Failure K8sStatus with the error text (API versions left at the zero
value); otherwise the payload is stored if it downcasts. -/
def kubernetesOnStatusUpdate (st : status.Status) (r : models.StatusResponse) :
    models.StatusResponse :=
  match st.Err with
  | some e =>
    { r with Kubernetes := some { State := .failure, Msg := e, K8sAPIVersions := [] } }
  | none =>
    match st.Data with
    | .k8sStatus s => { r with Kubernetes := some s }
    | _ => r

/-- Sink of the "ipam" probe: IPAMStatus has no way to show errors, so the
write happens only for a non-errored result whose payload downcasts. -/
def ipamOnStatusUpdate (st : status.Status) (r : models.StatusResponse) :
    models.StatusResponse :=
  match st.Err, st.Data with
  | none, .ipamStatus s => { r with Ipam := some s }
  | _, _ => r

/-- Sink of the "node-monitor" probe: same skip-on-error shape as ipam. -/
def nodeMonitorOnStatusUpdate (st : status.Status) (r : models.StatusResponse) :
    models.StatusResponse :=
  match st.Err, st.Data with
  | none, .monitorStatus s => { r with NodeMonitor := some s }
  | _, _ => r

/-- Sink of the "cluster" probe: on a non-errored, correctly-typed result
the whole Cluster structure is replaced, but when a Cluster structure is
already present its CiliumHealth member is carried over into the new value
(the source comments that CiliumHealth is set concurrently by the
cilium-health probe and must not be overridden). -/
def clusterOnStatusUpdate (st : status.Status) (r : models.StatusResponse) :
    models.StatusResponse :=
  match st.Err, st.Data with
  | none, .clusterStatus s =>
    match r.Cluster with
    | some old => { r with Cluster := some ({ s with CiliumHealth := old.CiliumHealth }) }
    | none => { r with Cluster := some s }
  | _, _ => r

/-- Sink of the "cilium-health" probe. The enabled flag models the
d.ciliumHealth == nil guard at the top (disabled means the sink returns
immediately). When enabled, a missing Cluster structure is first allocated
empty; then an errored result is recorded as a Failure CiliumHealth, and a
non-errored result is stored into CiliumHealth if it downcasts. -/
def ciliumHealthOnStatusUpdate (ciliumHealthEnabled : Bool) (st : status.Status)
    (r : models.StatusResponse) : models.StatusResponse :=
  if ciliumHealthEnabled then
    let cluster : models.ClusterStatus :=
      match r.Cluster with
      | some c => c
      | none => { Self := "", CiliumHealth := none }
    match st.Err with
    | some e =>
      { r with Cluster := some ({ cluster with CiliumHealth := some { State := .failure, Msg := e } }) }
    | none =>
      match st.Data with
      | .status s => { r with Cluster := some ({ cluster with CiliumHealth := some s }) }
      | _ => { r with Cluster := some cluster }
  else r

/-- Sink of the "l7-proxy" probe: skip-on-error shape. -/
def l7ProxyOnStatusUpdate (st : status.Status) (r : models.StatusResponse) :
    models.StatusResponse :=
  match st.Err, st.Data with
  | none, .proxyStatus s => { r with Proxy := some s }
  | _, _ => r

/-- Sink of the "controllers" probe: skip-on-error shape; the stored list
may be empty but the field becomes set (a non-nil slice). -/
def controllersOnStatusUpdate (st : status.Status) (r : models.StatusResponse) :
    models.StatusResponse :=
  match st.Err, st.Data with
  | none, .controllerStatuses cs => { r with Controllers := some cs }
  | _, _ => r

/-- Sink of the "clustermesh" probe: skip-on-error shape. -/
def clustermeshOnStatusUpdate (st : status.Status) (r : models.StatusResponse) :
    models.StatusResponse :=
  match st.Err, st.Data with
  | none, .clusterMeshStatus s => { r with ClusterMesh := some s }
  | _, _ => r

/-- Sink of the "hubble" probe: skip-on-error shape. -/
def hubbleOnStatusUpdate (st : status.Status) (r : models.StatusResponse) :
    models.StatusResponse :=
  match st.Err, st.Data with
  | none, .hubbleStatus s => { r with Hubble := some s }
  | _, _ => r

/-- Sink of the "encryption" probe: skip-on-error shape. -/
def encryptionOnStatusUpdate (st : status.Status) (r : models.StatusResponse) :
    models.StatusResponse :=
  match st.Err, st.Data with
  | none, .encryptionStatus s => { r with Encryption := some s }
  | _, _ => r

/-- Sink of the "kube-proxy-replacement" probe: skip-on-error shape. -/
def kubeProxyReplacementOnStatusUpdate (st : status.Status)
    (r : models.StatusResponse) : models.StatusResponse :=
  match st.Err, st.Data with
  | none, .kubeProxyReplacement s => { r with KubeProxyReplacement := some s }
  | _, _ => r

/-- Sink of the "auth-cert-provider" probe: skip-on-error shape, payload
downcast to models.Status. -/
def authCertProviderOnStatusUpdate (st : status.Status) (r : models.StatusResponse) :
    models.StatusResponse :=
  match st.Err, st.Data with
  | none, .status s => { r with AuthCertificateProvider := some s }
  | _, _ => r

/-- Sink of the "cni-config" probe: skip-on-error shape, payload downcast
to models.Status, stored into CniFile. -/
def cniConfigOnStatusUpdate (st : status.Status) (r : models.StatusResponse) :
    models.StatusResponse :=
  match st.Err, st.Data with
  | none, .status s => { r with CniFile := some s }
  | _, _ => r

/-- One result per registered probe, in the registration order of
startStatusCollector: the payload each probe's first completed run handed
to its sink. -/
structure FirstRunResults where
  kvstore : status.Status
  kubernetes : status.Status
  ipam : status.Status
  nodeMonitor : status.Status
  cluster : status.Status
  ciliumHealth : status.Status
  l7Proxy : status.Status
  controllers : status.Status
  clustermesh : status.Status
  hubble : status.Status
  encryption : status.Status
  kubeProxyReplacement : status.Status
  authCertProvider : status.Status
  cniConfig : status.Status
deriving DecidableEq

/-- Modelled from the spec: WaitForFirstRun "blocks until every registered
probe has completed at least one run-and-sink cycle" (the collector itself,
pkg/status, is not part of the excerpted source). The aggregate state once
the barrier is satisfied is therefore the result of applying every probe's
sink once, here in registration order, to the empty store. -/
def applyFirstRun (ciliumHealthEnabled : Bool) (rs : FirstRunResults)
    (r : models.StatusResponse) : models.StatusResponse :=
  cniConfigOnStatusUpdate rs.cniConfig
    (authCertProviderOnStatusUpdate rs.authCertProvider
      (kubeProxyReplacementOnStatusUpdate rs.kubeProxyReplacement
        (encryptionOnStatusUpdate rs.encryption
          (hubbleOnStatusUpdate rs.hubble
            (clustermeshOnStatusUpdate rs.clustermesh
              (controllersOnStatusUpdate rs.controllers
                (l7ProxyOnStatusUpdate rs.l7Proxy
                  (ciliumHealthOnStatusUpdate ciliumHealthEnabled rs.ciliumHealth
                    (clusterOnStatusUpdate rs.cluster
                      (nodeMonitorOnStatusUpdate rs.nodeMonitor
                        (ipamOnStatusUpdate rs.ipam
                          (kubernetesOnStatusUpdate rs.kubernetes
                            (kvstoreOnStatusUpdate rs.kvstore r)))))))))))))

/-- The controller scan of the brief branch of getStatus: skip entries with
a nil Status, return the first entry whose LastFailureMsg is non-empty as a
one-element list, and return none (a nil slice) when no entry qualifies. -/
def firstFailingController : List models.ControllerStatus →
    Option (List models.ControllerStatus)
  | [] => none
  | c :: rest =>
    match c.Status with
    | none => firstFailingController rest
    | some s =>
      if s.LastFailureMsg ≠ "" then some [c]
      else firstFailingController rest

/-- The brief projection built by getStatus: a fresh ClusterStatus carrying
only the (copied) CiliumHealth member of the live Cluster field, plus at
most the first failing controller; every other field is left at its zero
value. -/
def briefStatusResponse (r : models.StatusResponse) : models.StatusResponse :=
  let csCopy : models.ClusterStatus :=
    { Self := ""
      CiliumHealth :=
        match r.Cluster with
        | some c => c.CiliumHealth
        | none => none }
  let minimalControllers : Option (List models.ControllerStatus) :=
    match r.Controllers with
    | none => none
    | some cs => firstFailingController cs
  { models.StatusResponse.empty with
      Cluster := some csCopy
      Controllers := minimalControllers }

/-- Rollup arm 1: stale-probe set non-empty. -/
def staleArm (ciliumVer : String) (stale : List (String × Nat)) :
    Option models.Status :=
  if 0 < stale.length then
    some { State := .warning, Msg := ciliumVer ++ "    " ++ "Stale status data" }
  else none

/-- Rollup arm 2: kvstore field present and neither Ok nor Disabled. -/
def kvstoreArm (ciliumVer : String) (r : models.StatusResponse) :
    Option models.Status :=
  match r.Kvstore with
  | some k =>
    if k.State ≠ .ok ∧ k.State ≠ .disabled then
      some { State := k.State
             Msg := ciliumVer ++ "    " ++ ("Kvstore service is not ready: " ++ k.Msg) }
    else none
  | none => none

/-- Rollup arm 3: container-runtime field present and not Ok; a Disabled
state gets the fixed "Container runtime is disabled" message. -/
def containerRuntimeArm (ciliumVer : String) (r : models.StatusResponse) :
    Option models.Status :=
  match r.ContainerRuntime with
  | some c =>
    if c.State ≠ .ok then
      some { State := c.State
             Msg := ciliumVer ++ "    " ++
               (if c.State = .disabled then "Container runtime is disabled"
                else "Container runtime is not ready: " ++ c.Msg) }
    else none
  | none => none

/-- Rollup arm 4: the clientset is enabled, the Kubernetes field is present
and not Ok, and the caller requested the connectivity gate. -/
def k8sArm (clientsetEnabled requireK8sConnectivity : Bool) (ciliumVer : String)
    (r : models.StatusResponse) : Option models.Status :=
  match r.Kubernetes with
  | some k =>
    if clientsetEnabled ∧ k.State ≠ .ok ∧ requireK8sConnectivity then
      some { State := k.State
             Msg := ciliumVer ++ "    " ++ ("Kubernetes service is not ready: " ++ k.Msg) }
    else none
  | none => none

/-- Rollup arm 5: CNI-file field present with state Failure. -/
def cniFileArm (ciliumVer : String) (r : models.StatusResponse) :
    Option models.Status :=
  match r.CniFile with
  | some c =>
    if c.State = .failure then
      some { State := .failure
             Msg := ciliumVer ++ "    " ++ ("Could not write CNI config file: " ++ c.Msg) }
    else none
  | none => none

/-- The switch of getStatus: the first arm that matches wins, and when no
arm matches the verdict is Ok with the version banner alone. -/
def rollup (clientsetEnabled requireK8sConnectivity : Bool) (ciliumVer : String)
    (stale : List (String × Nat)) (r : models.StatusResponse) : models.Status :=
  match staleArm ciliumVer stale with
  | some v => v
  | none =>
  match kvstoreArm ciliumVer r with
  | some v => v
  | none =>
  match containerRuntimeArm ciliumVer r with
  | some v => v
  | none =>
  match k8sArm clientsetEnabled requireK8sConnectivity ciliumVer r with
  | some v => v
  | none =>
  match cniFileArm ciliumVer r with
  | some v => v
  | none => { State := .ok, Msg := ciliumVer }

/-- (d *Daemon) getStatus(brief, requireK8sConnectivity): builds either the
brief projection or a copy of the full aggregate (Go performs a deep copy;
under value semantics the copy is the value itself), attaches the stale map,
and computes the Cilium verdict by the fixed-priority switch, whose branch
conditions read the live store. -/
def getStatus (brief requireK8sConnectivity clientsetEnabled : Bool)
    (ciliumVer : String) (stale : List (String × Nat))
    (r : models.StatusResponse) : models.StatusResponse :=
  let sr := if brief then briefStatusResponse r else r
  { sr with
      Stale := stale
      Cilium := some (rollup clientsetEnabled requireK8sConnectivity ciliumVer stale r) }

/-- k8sVersionCheckInterval = 15 minutes, in seconds. -/
def k8sVersionCheckInterval : Nat := 15 * 60

/-- k8sMinimumEventHeartbeat = 1 minute, in seconds. -/
def k8sMinimumEventHeartbeat : Nat := 60

/-- Mirrors the k8sVersion cache structure (the mutex is dropped; times are
naturals in seconds). -/
structure k8sVersion where
  version : String
  lastVersionCheck : Nat
deriving DecidableEq, Repr

/-- Mirrors versionapi.Info, the payload of a successful ServerVersion call
(only the fields the cache formatter reads). -/
structure versionInfo where
  Major : String
  Minor : String
  GitVersion : String
  Platform : String
deriving DecidableEq, Repr

/-- (k *k8sVersion) cachedVersion: returns ("", false) when the last
successful apiserver interaction is older than the heartbeat window, or
when the stored version is empty or older than the recheck interval;
otherwise returns the cached version and true. Clock values are naturals,
so time.Since(t) is now - t (truncated). -/
def cachedVersion (k : k8sVersion) (lastSuccessInteraction now : Nat) :
    String × Bool :=
  if now - lastSuccessInteraction > k8sMinimumEventHeartbeat then ("", false)
  else if k.version = "" ∨ now - k.lastVersionCheck > k8sVersionCheckInterval then
    ("", false)
  else (k.version, true)

/-- (k *k8sVersion) update: formats the server version info and stamps the
cache with the current time. -/
def k8sVersionUpdate (info : versionInfo) (now : Nat) : k8sVersion :=
  { version := info.Major ++ "." ++ info.Minor ++ " (" ++ info.GitVersion ++ ") [" ++
      info.Platform ++ "]"
    lastVersionCheck := now }

/-- (d *Daemon) getK8sStatus, as a pure function. serverVersion is the
result the live Discovery().ServerVersion() call would produce, apiGroups
the watcher's GetAPIGroups(). Returns the status, the (possibly refreshed)
cache, and whether the live query was issued. -/
def getK8sStatus (clientsetEnabled : Bool) (cache : k8sVersion)
    (lastSuccessInteraction now : Nat) (serverVersion : Except String versionInfo)
    (apiGroups : List String) :
    models.K8sStatus × k8sVersion × Bool :=
  if clientsetEnabled then
    match cachedVersion cache lastSuccessInteraction now with
    | (v, true) =>
      ({ State := .ok, Msg := v, K8sAPIVersions := apiGroups }, cache, false)
    | (_, false) =>
      match serverVersion with
      | .error e =>
        ({ State := .failure, Msg := e, K8sAPIVersions := [] }, cache, true)
      | .ok info =>
        let cache' := k8sVersionUpdate info now
        ({ State := .ok, Msg := cache'.version, K8sAPIVersions := apiGroups },
          cache', true)
  else ({ State := .disabled, Msg := "", K8sAPIVersions := [] }, cache, false)

/-- Modelled from the spec: backoff.CalculateDuration (pkg/backoff is not
part of the excerpted source) — "for f > 0, returns an exponentially
growing delay base * multiplier^f, clamped to [min, max]". Durations are
naturals in seconds; the kubernetes probe calls it with jitter = false, so
no jitter is modelled. -/
def calculateDuration (base maxDuration factor failures : Nat) : Nat :=
  min (max (base * factor ^ failures) base) maxDuration

/-- The Interval policy of the "kubernetes" probe: while failing, an
exponential backoff with base 5 seconds, factor 2, maximum 2 minutes;
while healthy, the cluster-size-dependent cadence (an external signal,
passed in as clusterSizeInterval). -/
def kubernetesStatusInterval (clusterSizeInterval : Nat) (failures : Nat) : Nat :=
  if 0 < failures then calculateDuration 5 (2 * 60) 2 failures
  else clusterSizeInterval

/-- No kvstore arm match: the field is absent or its state is Ok or
Disabled. -/
def kvstoreClear (r : models.StatusResponse) : Prop :=
  ∀ k, r.Kvstore = some k → k.State = .ok ∨ k.State = .disabled

/-- No container-runtime arm match: the field is absent or its state
is Ok. -/
def containerRuntimeClear (r : models.StatusResponse) : Prop :=
  ∀ c, r.ContainerRuntime = some c → c.State = .ok

/-- No Kubernetes arm match: whenever the field is present, the clientset
is enabled and the gate is requested, its state is Ok. -/
def k8sGateClear (clientsetEnabled requireK8sConnectivity : Bool)
    (r : models.StatusResponse) : Prop :=
  ∀ k, r.Kubernetes = some k → clientsetEnabled = true →
    requireK8sConnectivity = true → k.State = .ok

/-- No CNI-file arm match: the field is absent or its state is not
Failure. -/
def cniFileClear (r : models.StatusResponse) : Prop :=
  ∀ c, r.CniFile = some c → c.State ≠ .failure

theorem getStatus_Cilium (brief requireK8sConnectivity clientsetEnabled : Bool)
    (ver : String) (stale : List (String × Nat)) (r : models.StatusResponse) :
    (getStatus brief requireK8sConnectivity clientsetEnabled ver stale r).Cilium =
      some (rollup clientsetEnabled requireK8sConnectivity ver stale r) := by
  unfold getStatus
  cases brief <;> rfl

theorem staleArm_nil (ver : String) : staleArm ver [] = none := rfl

theorem staleArm_pos (ver : String) (stale : List (String × Nat))
    (h : 0 < stale.length) :
    staleArm ver stale =
      some { State := .warning, Msg := ver ++ "    " ++ "Stale status data" } := by
  simp [staleArm, h]

theorem kvstoreArm_eq_none (ver : String) (r : models.StatusResponse)
    (h : kvstoreClear r) : kvstoreArm ver r = none := by
  cases hk : r.Kvstore with
  | none => simp [kvstoreArm, hk]
  | some k => rcases h k hk with h1 | h1 <;> simp [kvstoreArm, hk, h1]

theorem containerRuntimeArm_eq_none (ver : String) (r : models.StatusResponse)
    (h : containerRuntimeClear r) : containerRuntimeArm ver r = none := by
  cases hc : r.ContainerRuntime with
  | none => simp [containerRuntimeArm, hc]
  | some c => simp [containerRuntimeArm, hc, h c hc]

theorem k8sArm_eq_none (clientsetEnabled requireK8sConnectivity : Bool)
    (ver : String) (r : models.StatusResponse)
    (h : k8sGateClear clientsetEnabled requireK8sConnectivity r) :
    k8sArm clientsetEnabled requireK8sConnectivity ver r = none := by
  cases hk : r.Kubernetes with
  | none => simp [k8sArm, hk]
  | some k =>
    simp only [k8sArm, hk]
    rw [if_neg]
    rintro ⟨he, hne, hq⟩
    exact hne (h k hk he hq)

theorem cniFileArm_eq_none (ver : String) (r : models.StatusResponse)
    (h : cniFileClear r) : cniFileArm ver r = none := by
  cases hc : r.CniFile with
  | none => simp [cniFileArm, hc]
  | some c => simp [cniFileArm, hc, h c hc]

/-- C1: getStatus applies exactly the first matching branch of the fixed
priority order: (1) a non-empty stale set yields Warning "Stale status
data"; (2) otherwise a present, non-Ok, non-Disabled kvstore field
propagates; (3) otherwise a present non-Ok container-runtime field
propagates; (4) otherwise the orchestrator gate; (5) otherwise a CNI-file
Failure; (6) otherwise Ok with the version banner alone. In particular
(last conjunct) a non-empty stale set together with a failing kvstore
field yields the Warning staleness message, whose text is the banner plus
"Stale status data" and does not involve the kvstore message. -/
theorem getStatus_rollup_priority_order
    (brief requireK8sConnectivity clientsetEnabled : Bool) (ver : String)
    (stale : List (String × Nat)) (r : models.StatusResponse) :
    (0 < stale.length →
      (getStatus brief requireK8sConnectivity clientsetEnabled ver stale r).Cilium =
        some { State := .warning, Msg := ver ++ "    " ++ "Stale status data" })
    ∧
    (stale = [] →
      ∀ k, r.Kvstore = some k → k.State ≠ .ok → k.State ≠ .disabled →
      (getStatus brief requireK8sConnectivity clientsetEnabled ver stale r).Cilium =
        some { State := k.State
               Msg := ver ++ "    " ++ ("Kvstore service is not ready: " ++ k.Msg) })
    ∧
    (stale = [] → kvstoreClear r →
      ∀ c, r.ContainerRuntime = some c → c.State ≠ .ok →
      (getStatus brief requireK8sConnectivity clientsetEnabled ver stale r).Cilium =
        some { State := c.State
               Msg := ver ++ "    " ++
                 (if c.State = .disabled then "Container runtime is disabled"
                  else "Container runtime is not ready: " ++ c.Msg) })
    ∧
    (stale = [] → kvstoreClear r → containerRuntimeClear r →
      clientsetEnabled = true → requireK8sConnectivity = true →
      ∀ k, r.Kubernetes = some k → k.State ≠ .ok →
      (getStatus brief requireK8sConnectivity clientsetEnabled ver stale r).Cilium =
        some { State := k.State
               Msg := ver ++ "    " ++ ("Kubernetes service is not ready: " ++ k.Msg) })
    ∧
    (stale = [] → kvstoreClear r → containerRuntimeClear r →
      k8sGateClear clientsetEnabled requireK8sConnectivity r →
      ∀ c, r.CniFile = some c → c.State = .failure →
      (getStatus brief requireK8sConnectivity clientsetEnabled ver stale r).Cilium =
        some { State := .failure
               Msg := ver ++ "    " ++ ("Could not write CNI config file: " ++ c.Msg) })
    ∧
    (stale = [] → kvstoreClear r → containerRuntimeClear r →
      k8sGateClear clientsetEnabled requireK8sConnectivity r → cniFileClear r →
      (getStatus brief requireK8sConnectivity clientsetEnabled ver stale r).Cilium =
        some { State := .ok, Msg := ver })
    ∧
    (0 < stale.length →
      ∀ k, r.Kvstore = some k → k.State = .failure →
      (getStatus brief requireK8sConnectivity clientsetEnabled ver stale r).Cilium =
        some { State := .warning, Msg := ver ++ "    " ++ "Stale status data" }) := by
  refine ⟨?_, ?_, ?_, ?_, ?_, ?_, ?_⟩
  · intro h
    rw [getStatus_Cilium]
    unfold rollup
    rw [staleArm_pos ver stale h]
  · rintro rfl k hk h1 h2
    rw [getStatus_Cilium]
    unfold rollup
    rw [staleArm_nil]
    simp [kvstoreArm, hk, h1, h2]
  · rintro rfl hkv c hc h1
    rw [getStatus_Cilium]
    unfold rollup
    rw [staleArm_nil, kvstoreArm_eq_none ver r hkv]
    simp [containerRuntimeArm, hc, h1]
  · rintro rfl hkv hcr he hq k hk h1
    rw [getStatus_Cilium]
    unfold rollup
    rw [staleArm_nil, kvstoreArm_eq_none ver r hkv,
      containerRuntimeArm_eq_none ver r hcr]
    simp [k8sArm, hk, he, hq, h1]
  · rintro rfl hkv hcr hk8 c hc h1
    rw [getStatus_Cilium]
    unfold rollup
    rw [staleArm_nil, kvstoreArm_eq_none ver r hkv,
      containerRuntimeArm_eq_none ver r hcr,
      k8sArm_eq_none clientsetEnabled requireK8sConnectivity ver r hk8]
    simp [cniFileArm, hc, h1]
  · rintro rfl hkv hcr hk8 hcni
    rw [getStatus_Cilium]
    unfold rollup
    rw [staleArm_nil, kvstoreArm_eq_none ver r hkv,
      containerRuntimeArm_eq_none ver r hcr,
      k8sArm_eq_none clientsetEnabled requireK8sConnectivity ver r hk8,
      cniFileArm_eq_none ver r hcni]
  · intro h k _ _
    rw [getStatus_Cilium]
    unfold rollup
    rw [staleArm_pos ver stale h]

/-- Witness for C1: with one stale probe and a simultaneously failing
kvstore field, the verdict is the Warning staleness message. -/
theorem getStatus_rollup_priority_order_witness :
    (getStatus false true true "1.0" [("kvstore", 5)]
      { models.StatusResponse.empty with
          Kvstore := some { State := .failure, Msg := "etcd down" } }).Cilium =
      some { State := .warning, Msg := "1.0" ++ "    " ++ "Stale status data" } :=
  (getStatus_rollup_priority_order false true true "1.0" [("kvstore", 5)]
    { models.StatusResponse.empty with
        Kvstore := some { State := .failure, Msg := "etcd down" } }).2.2.2.2.2.2
    (by decide) { State := .failure, Msg := "etcd down" } rfl rfl

/-- Counterexample for C6: with the clientset disabled, the gate requested
(requireK8sConnectivity = true), the Kubernetes field present with the
non-Ok state Disabled, and no higher-priority branch applying, getStatus
does NOT propagate the Kubernetes state: the verdict is Ok with the banner
alone, not the claimed "Kubernetes service is not ready" propagation. -/
theorem k8s_gate_skipped_when_clientset_disabled :
    (getStatus false true false "1.0" []
      { models.StatusResponse.empty with
          Kubernetes := some { State := .disabled, Msg := "m", K8sAPIVersions := [] } }).Cilium =
      some { State := .ok, Msg := "1.0" }
    ∧
    (getStatus false true false "1.0" []
      { models.StatusResponse.empty with
          Kubernetes := some { State := .disabled, Msg := "m", K8sAPIVersions := [] } }).Cilium ≠
      some { State := .disabled
             Msg := "1.0" ++ "    " ++ ("Kubernetes service is not ready: " ++ "m") } := by
  constructor
  · rfl
  · decide

/-- C6 amended: the propagation additionally requires the clientset to be
enabled. Whenever the caller requests the gate, the clientset is enabled,
the Kubernetes field is present with a non-Ok state, and no higher-priority
branch applies, getStatus propagates the Kubernetes state with message
"Kubernetes service is not ready: <its message>" after the banner. -/
theorem k8s_gate_propagates_when_clientset_enabled
    (brief : Bool) (ver : String) (r : models.StatusResponse)
    (k : models.K8sStatus)
    (hkv : kvstoreClear r) (hcr : containerRuntimeClear r)
    (hk : r.Kubernetes = some k) (hne : k.State ≠ .ok) :
    (getStatus brief true true ver [] r).Cilium =
      some { State := k.State
             Msg := ver ++ "    " ++ ("Kubernetes service is not ready: " ++ k.Msg) } := by
  rw [getStatus_Cilium]
  unfold rollup
  rw [staleArm_nil, kvstoreArm_eq_none ver r hkv,
    containerRuntimeArm_eq_none ver r hcr]
  simp [k8sArm, hk, hne]

/-- Witness for the amended C6: a failing Kubernetes field propagates when
the clientset is enabled and the gate requested. -/
theorem k8s_gate_propagates_when_clientset_enabled_witness :
    (getStatus false true true "1.0" []
      { models.StatusResponse.empty with
          Kubernetes := some { State := .failure, Msg := "down", K8sAPIVersions := [] } }).Cilium =
      some { State := .failure
             Msg := "1.0" ++ "    " ++ ("Kubernetes service is not ready: " ++ "down") } :=
  k8s_gate_propagates_when_clientset_enabled false "1.0"
    { models.StatusResponse.empty with
        Kubernetes := some { State := .failure, Msg := "down", K8sAPIVersions := [] } }
    { State := .failure, Msg := "down", K8sAPIVersions := [] }
    (by intro x hx; cases hx) (by intro x hx; cases hx) rfl (by decide)

theorem firstFailingController_at_most_one (cs : List models.ControllerStatus) :
    firstFailingController cs = none ∨ ∃ c, firstFailingController cs = some [c] := by
  induction cs with
  | nil => exact Or.inl rfl
  | cons c rest ih =>
    cases hs : c.Status with
    | none => simpa [firstFailingController, hs] using ih
    | some s =>
      by_cases hm : s.LastFailureMsg = ""
      · simpa [firstFailingController, hs, hm] using ih
      · exact Or.inr ⟨c, by simp [firstFailingController, hs, hm]⟩

theorem firstFailingController_finds (pre : List models.ControllerStatus)
    (c : models.ControllerStatus) (s : models.ControllerStatusStatus)
    (post : List models.ControllerStatus)
    (hpre : ∀ p ∈ pre, ∀ s', p.Status = some s' → s'.LastFailureMsg = "")
    (hc : c.Status = some s) (hm : s.LastFailureMsg ≠ "") :
    firstFailingController (pre ++ c :: post) = some [c] := by
  induction pre with
  | nil => simp [firstFailingController, hc, hm]
  | cons p rest ih =>
    have hrest : ∀ q ∈ rest, ∀ s', q.Status = some s' → s'.LastFailureMsg = "" :=
      fun q hq => hpre q (by simp [hq])
    cases hps : p.Status with
    | none =>
      simpa [firstFailingController, hps] using ih hrest
    | some s' =>
      have he : s'.LastFailureMsg = "" := hpre p (by simp) s' hps
      simpa [firstFailingController, hps, he] using ih hrest

/-- C2: the brief snapshot reports at most one controller — exactly the
first whose status carries a non-empty last-failure message, with all
earlier (non-failing) and all later controllers omitted — and besides the
controllers, the stale map and the computed verdict, it carries only the
copied CiliumHealth member of the cluster status; every other field is
left at its zero value. -/
theorem getStatus_brief_projection (requireK8sConnectivity clientsetEnabled : Bool)
    (ver : String) (stale : List (String × Nat)) (r : models.StatusResponse) :
    (∀ l, (getStatus true requireK8sConnectivity clientsetEnabled ver stale r).Controllers =
        some l → l.length ≤ 1)
    ∧
    (∀ pre c s post, r.Controllers = some (pre ++ c :: post) →
      (∀ p ∈ pre, ∀ s', p.Status = some s' → s'.LastFailureMsg = "") →
      c.Status = some s → s.LastFailureMsg ≠ "" →
      (getStatus true requireK8sConnectivity clientsetEnabled ver stale r).Controllers =
        some [c])
    ∧
    (getStatus true requireK8sConnectivity clientsetEnabled ver stale r).Cluster =
      some { Self := ""
             CiliumHealth :=
               match r.Cluster with
               | some c => c.CiliumHealth
               | none => none }
    ∧
    (getStatus true requireK8sConnectivity clientsetEnabled ver stale r).Stale = stale
    ∧
    (getStatus true requireK8sConnectivity clientsetEnabled ver stale r).Cilium =
      some (rollup clientsetEnabled requireK8sConnectivity ver stale r)
    ∧
    (getStatus true requireK8sConnectivity clientsetEnabled ver stale r).Kvstore = none
    ∧
    (getStatus true requireK8sConnectivity clientsetEnabled ver stale r).ContainerRuntime = none
    ∧
    (getStatus true requireK8sConnectivity clientsetEnabled ver stale r).Kubernetes = none
    ∧
    (getStatus true requireK8sConnectivity clientsetEnabled ver stale r).Ipam = none
    ∧
    (getStatus true requireK8sConnectivity clientsetEnabled ver stale r).NodeMonitor = none
    ∧
    (getStatus true requireK8sConnectivity clientsetEnabled ver stale r).Proxy = none
    ∧
    (getStatus true requireK8sConnectivity clientsetEnabled ver stale r).ClusterMesh = none
    ∧
    (getStatus true requireK8sConnectivity clientsetEnabled ver stale r).Hubble = none
    ∧
    (getStatus true requireK8sConnectivity clientsetEnabled ver stale r).Encryption = none
    ∧
    (getStatus true requireK8sConnectivity clientsetEnabled ver stale r).KubeProxyReplacement = none
    ∧
    (getStatus true requireK8sConnectivity clientsetEnabled ver stale r).AuthCertificateProvider = none
    ∧
    (getStatus true requireK8sConnectivity clientsetEnabled ver stale r).CniFile = none := by
  have hC : (getStatus true requireK8sConnectivity clientsetEnabled ver stale r).Controllers =
      match r.Controllers with
      | none => none
      | some cs => firstFailingController cs := rfl
  refine ⟨?_, ?_, rfl, rfl, rfl, rfl, rfl, rfl, rfl, rfl, rfl, rfl, rfl, rfl, rfl, rfl, rfl⟩
  · intro l hl
    rw [hC] at hl
    cases hr : r.Controllers with
    | none => rw [hr] at hl; cases hl
    | some cs =>
      rw [hr] at hl
      simp only at hl
      rcases firstFailingController_at_most_one cs with h | ⟨c, h⟩
      · rw [h] at hl; cases hl
      · rw [h] at hl
        cases hl
        simp
  · intro pre c s post hcs hpre hcst hm
    rw [hC, hcs]
    simp only
    exact firstFailingController_finds pre c s post hpre hcst hm

/-- Witness for C2: three controllers where only the second has a failure
message yield exactly the second in the brief snapshot. -/
theorem getStatus_brief_projection_witness :
    (getStatus true false false "1.0" []
      { models.StatusResponse.empty with
          Controllers := some
            [{ Name := "a", Status := some { LastFailureMsg := "" } },
             { Name := "b", Status := some { LastFailureMsg := "boom" } },
             { Name := "c", Status := some { LastFailureMsg := "" } }] }).Controllers =
      some [{ Name := "b", Status := some { LastFailureMsg := "boom" } }] :=
  (getStatus_brief_projection false false "1.0" []
    { models.StatusResponse.empty with
        Controllers := some
          [{ Name := "a", Status := some { LastFailureMsg := "" } },
           { Name := "b", Status := some { LastFailureMsg := "boom" } },
           { Name := "c", Status := some { LastFailureMsg := "" } }] }).2.1
    [{ Name := "a", Status := some { LastFailureMsg := "" } }]
    { Name := "b", Status := some { LastFailureMsg := "boom" } }
    { LastFailureMsg := "boom" }
    [{ Name := "c", Status := some { LastFailureMsg := "" } }]
    rfl (by decide) rfl (by decide)

theorem cachedVersion_cases (k : k8sVersion) (lsi now : Nat) :
    cachedVersion k lsi now = (k.version, true) ∨
      cachedVersion k lsi now = ("", false) := by
  unfold cachedVersion
  split_ifs <;> simp

/-- C5: cachedVersion is valid iff the last successful apiserver
interaction is within the one-minute heartbeat window AND the stored
version is non-empty and checked within the 15-minute recheck interval.
When valid, getK8sStatus returns the cached version without issuing the
live server-version query; when invalid it queries synchronously,
returning a Failure with the error text when the live query fails and
refreshing the cache when it succeeds. A heartbeat older than one minute
invalidates the cache regardless of how recently the version was
recorded. -/
theorem cachedVersion_getK8sStatus_spec (cache : k8sVersion)
    (lsi now : Nat) (q : Except String versionInfo) (groups : List String) :
    ((cachedVersion cache lsi now).2 = true ↔
      (now - lsi ≤ k8sMinimumEventHeartbeat ∧ cache.version ≠ "" ∧
        now - cache.lastVersionCheck ≤ k8sVersionCheckInterval))
    ∧
    ((cachedVersion cache lsi now).2 = true →
      getK8sStatus true cache lsi now q groups =
        ({ State := .ok, Msg := cache.version, K8sAPIVersions := groups }, cache, false))
    ∧
    ((cachedVersion cache lsi now).2 = false → ∀ e, q = .error e →
      getK8sStatus true cache lsi now q groups =
        ({ State := .failure, Msg := e, K8sAPIVersions := [] }, cache, true))
    ∧
    ((cachedVersion cache lsi now).2 = false → ∀ info, q = .ok info →
      getK8sStatus true cache lsi now q groups =
        ({ State := .ok, Msg := (k8sVersionUpdate info now).version,
           K8sAPIVersions := groups }, k8sVersionUpdate info now, true))
    ∧
    (now - lsi > k8sMinimumEventHeartbeat →
      (cachedVersion cache lsi now).2 = false) := by
  refine ⟨?_, ?_, ?_, ?_, ?_⟩
  · unfold cachedVersion
    split_ifs with h1 h2
    · constructor
      · intro h; simp at h
      · rintro ⟨ha, -, -⟩; omega
    · constructor
      · intro h; simp at h
      · rintro ⟨-, hb, hc⟩
        rcases h2 with h2 | h2
        · exact hb h2
        · omega
    · push_neg at h2
      exact ⟨fun _ => ⟨by omega, h2.1, by omega⟩, fun _ => rfl⟩
  · intro hv
    rcases cachedVersion_cases cache lsi now with he | he
    · unfold getK8sStatus
      rw [he]
      rfl
    · rw [he] at hv; cases hv
  · intro hv e hq
    rcases cachedVersion_cases cache lsi now with he | he
    · rw [he] at hv; cases hv
    · unfold getK8sStatus
      rw [he, hq]
      rfl
  · intro hv info hq
    rcases cachedVersion_cases cache lsi now with he | he
    · rw [he] at hv; cases hv
    · unfold getK8sStatus
      rw [he, hq]
      rfl
  · intro h
    unfold cachedVersion
    rw [if_pos h]

/-- Witness for C5: with a heartbeat 2 minutes old but a version recorded
5 seconds ago, the cache is invalid, and a failing live query yields a
Failure status with the error text while leaving the cache untouched. -/
theorem cachedVersion_getK8sStatus_spec_witness :
    (cachedVersion { version := "1.28", lastVersionCheck := 995 } 880 1000).2 = false
    ∧
    getK8sStatus true { version := "1.28", lastVersionCheck := 995 } 880 1000
        (Except.error "connection refused") ["v1"] =
      ({ State := .failure, Msg := "connection refused", K8sAPIVersions := [] },
        { version := "1.28", lastVersionCheck := 995 }, true) :=
  ⟨(cachedVersion_getK8sStatus_spec { version := "1.28", lastVersionCheck := 995 }
      880 1000 (Except.error "connection refused") ["v1"]).2.2.2.2 (by decide),
   (cachedVersion_getK8sStatus_spec { version := "1.28", lastVersionCheck := 995 }
      880 1000 (Except.error "connection refused") ["v1"]).2.2.1
     ((cachedVersion_getK8sStatus_spec { version := "1.28", lastVersionCheck := 995 }
        880 1000 (Except.error "connection refused") ["v1"]).2.2.2.2 (by decide))
     "connection refused" rfl⟩

theorem calculateDuration_mono (base maxDuration factor : Nat) (hf : 1 ≤ factor)
    (f : Nat) :
    calculateDuration base maxDuration factor f ≤
      calculateDuration base maxDuration factor (f + 1) := by
  unfold calculateDuration
  have hp : factor ^ f ≤ factor ^ (f + 1) :=
    Nat.pow_le_pow_right hf (Nat.le_succ f)
  exact min_le_min (max_le_max (mul_le_mul_left' hp base) (le_refl base)) (le_refl _)

/-- C9: the kubernetes probe's interval policy is monotonically
non-decreasing in the failure count for f >= 1 (exponential backoff,
base 5 seconds, factor 2), and the returned delay is always within
[5 seconds, 2 minutes] while failing. -/
theorem kubernetes_interval_backoff_monotone (clusterSizeInterval f : Nat)
    (h : 1 ≤ f) :
    kubernetesStatusInterval clusterSizeInterval f ≤
      kubernetesStatusInterval clusterSizeInterval (f + 1)
    ∧ kubernetesStatusInterval clusterSizeInterval f ≤ 2 * 60
    ∧ 5 ≤ kubernetesStatusInterval clusterSizeInterval f := by
  have h0 : 0 < f := h
  have h1 : 0 < f + 1 := Nat.succ_pos f
  simp only [kubernetesStatusInterval, if_pos h0, if_pos h1]
  exact ⟨calculateDuration_mono 5 (2 * 60) 2 (by norm_num) f,
    min_le_right _ _,
    le_min (le_max_right _ _) (by norm_num)⟩

/-- Witness for C9 at failure count 1 (healthy cadence 10 seconds). -/
theorem kubernetes_interval_backoff_monotone_witness :
    kubernetesStatusInterval 10 1 ≤ kubernetesStatusInterval 10 2
    ∧ kubernetesStatusInterval 10 1 ≤ 2 * 60
    ∧ 5 ≤ kubernetesStatusInterval 10 1 :=
  kubernetes_interval_backoff_monotone 10 1 (by decide)

theorem kvstore_writes_only_Kvstore (st : status.Status) (r : models.StatusResponse) :
    kvstoreOnStatusUpdate st r =
      { r with Kvstore := (kvstoreOnStatusUpdate st r).Kvstore } := by
  obtain ⟨d, err⟩ := st
  cases err <;> cases d <;> rfl

theorem kubernetes_writes_only_Kubernetes (st : status.Status) (r : models.StatusResponse) :
    kubernetesOnStatusUpdate st r =
      { r with Kubernetes := (kubernetesOnStatusUpdate st r).Kubernetes } := by
  obtain ⟨d, err⟩ := st
  cases err <;> cases d <;> rfl

theorem ipam_writes_only_Ipam (st : status.Status) (r : models.StatusResponse) :
    ipamOnStatusUpdate st r = { r with Ipam := (ipamOnStatusUpdate st r).Ipam } := by
  obtain ⟨d, err⟩ := st
  cases err <;> cases d <;> rfl

theorem nodeMonitor_writes_only_NodeMonitor (st : status.Status) (r : models.StatusResponse) :
    nodeMonitorOnStatusUpdate st r =
      { r with NodeMonitor := (nodeMonitorOnStatusUpdate st r).NodeMonitor } := by
  obtain ⟨d, err⟩ := st
  cases err <;> cases d <;> rfl

theorem cluster_writes_only_Cluster (st : status.Status) (r : models.StatusResponse) :
    clusterOnStatusUpdate st r =
      { r with Cluster := (clusterOnStatusUpdate st r).Cluster } := by
  obtain ⟨d, err⟩ := st
  cases err <;> cases d <;> try rfl
  cases hrc : r.Cluster <;> simp [clusterOnStatusUpdate, hrc]

theorem ciliumHealth_writes_only_Cluster (e : Bool) (st : status.Status)
    (r : models.StatusResponse) :
    ciliumHealthOnStatusUpdate e st r =
      { r with Cluster := (ciliumHealthOnStatusUpdate e st r).Cluster } := by
  obtain ⟨d, err⟩ := st
  cases e
  · rfl
  · cases hrc : r.Cluster <;> cases err <;> cases d <;>
      simp [ciliumHealthOnStatusUpdate, hrc]

theorem l7Proxy_writes_only_Proxy (st : status.Status) (r : models.StatusResponse) :
    l7ProxyOnStatusUpdate st r = { r with Proxy := (l7ProxyOnStatusUpdate st r).Proxy } := by
  obtain ⟨d, err⟩ := st
  cases err <;> cases d <;> rfl

theorem controllers_writes_only_Controllers (st : status.Status) (r : models.StatusResponse) :
    controllersOnStatusUpdate st r =
      { r with Controllers := (controllersOnStatusUpdate st r).Controllers } := by
  obtain ⟨d, err⟩ := st
  cases err <;> cases d <;> rfl

theorem clustermesh_writes_only_ClusterMesh (st : status.Status) (r : models.StatusResponse) :
    clustermeshOnStatusUpdate st r =
      { r with ClusterMesh := (clustermeshOnStatusUpdate st r).ClusterMesh } := by
  obtain ⟨d, err⟩ := st
  cases err <;> cases d <;> rfl

theorem hubble_writes_only_Hubble (st : status.Status) (r : models.StatusResponse) :
    hubbleOnStatusUpdate st r = { r with Hubble := (hubbleOnStatusUpdate st r).Hubble } := by
  obtain ⟨d, err⟩ := st
  cases err <;> cases d <;> rfl

theorem encryption_writes_only_Encryption (st : status.Status) (r : models.StatusResponse) :
    encryptionOnStatusUpdate st r =
      { r with Encryption := (encryptionOnStatusUpdate st r).Encryption } := by
  obtain ⟨d, err⟩ := st
  cases err <;> cases d <;> rfl

theorem kubeProxyReplacement_writes_only_KubeProxyReplacement (st : status.Status)
    (r : models.StatusResponse) :
    kubeProxyReplacementOnStatusUpdate st r =
      { r with KubeProxyReplacement := (kubeProxyReplacementOnStatusUpdate st r).KubeProxyReplacement } := by
  obtain ⟨d, err⟩ := st
  cases err <;> cases d <;> rfl

theorem authCertProvider_writes_only_AuthCertificateProvider (st : status.Status)
    (r : models.StatusResponse) :
    authCertProviderOnStatusUpdate st r =
      { r with AuthCertificateProvider := (authCertProviderOnStatusUpdate st r).AuthCertificateProvider } := by
  obtain ⟨d, err⟩ := st
  cases err <;> cases d <;> rfl

theorem cniConfig_writes_only_CniFile (st : status.Status) (r : models.StatusResponse) :
    cniConfigOnStatusUpdate st r =
      { r with CniFile := (cniConfigOnStatusUpdate st r).CniFile } := by
  obtain ⟨d, err⟩ := st
  cases err <;> cases d <;> rfl

theorem cluster_sink_preserves_CiliumHealth (st : status.Status)
    (r : models.StatusResponse) (c : models.ClusterStatus)
    (hc : r.Cluster = some c) :
    (clusterOnStatusUpdate st r).Cluster = r.Cluster ∨
      ∃ c', (clusterOnStatusUpdate st r).Cluster = some c' ∧
        c'.CiliumHealth = c.CiliumHealth := by
  obtain ⟨d, err⟩ := st
  cases err with
  | some e => exact Or.inl rfl
  | none =>
    cases d with
    | clusterStatus s =>
      refine Or.inr ⟨{ s with CiliumHealth := c.CiliumHealth }, ?_, rfl⟩
      simp [clusterOnStatusUpdate, hc]
    | null => exact Or.inl rfl
    | status s => exact Or.inl rfl
    | k8sStatus s => exact Or.inl rfl
    | ipamStatus s => exact Or.inl rfl
    | monitorStatus s => exact Or.inl rfl
    | proxyStatus s => exact Or.inl rfl
    | controllerStatuses cs => exact Or.inl rfl
    | clusterMeshStatus s => exact Or.inl rfl
    | hubbleStatus s => exact Or.inl rfl
    | encryptionStatus s => exact Or.inl rfl
    | kubeProxyReplacement s => exact Or.inl rfl

theorem ciliumHealth_sink_preserves_Self (e : Bool) (st : status.Status)
    (r : models.StatusResponse) (c c' : models.ClusterStatus)
    (hc : r.Cluster = some c)
    (h : (ciliumHealthOnStatusUpdate e st r).Cluster = some c') :
    c'.Self = c.Self := by
  obtain ⟨d, err⟩ := st
  cases e
  · have hid : ciliumHealthOnStatusUpdate false ⟨d, err⟩ r = r := rfl
    rw [hid, hc] at h
    cases h
    rfl
  · cases err <;> cases d <;>
      simp only [ciliumHealthOnStatusUpdate, hc, if_true, Option.some.injEq] at h <;>
      simp [← h]

/-- Counterexample for C4: two distinct probes' sinks target the same
field of the aggregate. On an empty store, the cluster probe's sink and
the cilium-health probe's sink each change the Cluster field, so the
fields written by the probes' sinks are not pairwise disjoint. -/
theorem cluster_and_ciliumHealth_write_same_field :
    (clusterOnStatusUpdate
        { Data := .clusterStatus { Self := "node1", CiliumHealth := none }, Err := none }
        models.StatusResponse.empty).Cluster ≠
      models.StatusResponse.empty.Cluster
    ∧
    (ciliumHealthOnStatusUpdate true
        { Data := .status { State := .ok, Msg := "healthy" }, Err := none }
        models.StatusResponse.empty).Cluster ≠
      models.StatusResponse.empty.Cluster := by
  exact ⟨by decide, by decide⟩

/-- C4 amended: every sink writes only its owning probe's field, and the
fields are pairwise disjoint with one exception — the cluster and
cilium-health probes' sinks both write the Cluster field. Within that
shared field they preserve each other's member: the cluster sink carries
the existing CiliumHealth member over into any value it writes, and the
cilium-health sink never alters the Self member of an existing Cluster
value (it only writes the CiliumHealth member, allocating an empty
Cluster wrapper when none exists). -/
theorem sink_field_ownership_amended (e : Bool) (st : status.Status)
    (r : models.StatusResponse) :
    (kvstoreOnStatusUpdate st r =
      { r with Kvstore := (kvstoreOnStatusUpdate st r).Kvstore })
    ∧
    (kubernetesOnStatusUpdate st r =
      { r with Kubernetes := (kubernetesOnStatusUpdate st r).Kubernetes })
    ∧
    (ipamOnStatusUpdate st r = { r with Ipam := (ipamOnStatusUpdate st r).Ipam })
    ∧
    (nodeMonitorOnStatusUpdate st r =
      { r with NodeMonitor := (nodeMonitorOnStatusUpdate st r).NodeMonitor })
    ∧
    (clusterOnStatusUpdate st r =
      { r with Cluster := (clusterOnStatusUpdate st r).Cluster })
    ∧
    (ciliumHealthOnStatusUpdate e st r =
      { r with Cluster := (ciliumHealthOnStatusUpdate e st r).Cluster })
    ∧
    (l7ProxyOnStatusUpdate st r = { r with Proxy := (l7ProxyOnStatusUpdate st r).Proxy })
    ∧
    (controllersOnStatusUpdate st r =
      { r with Controllers := (controllersOnStatusUpdate st r).Controllers })
    ∧
    (clustermeshOnStatusUpdate st r =
      { r with ClusterMesh := (clustermeshOnStatusUpdate st r).ClusterMesh })
    ∧
    (hubbleOnStatusUpdate st r = { r with Hubble := (hubbleOnStatusUpdate st r).Hubble })
    ∧
    (encryptionOnStatusUpdate st r =
      { r with Encryption := (encryptionOnStatusUpdate st r).Encryption })
    ∧
    (kubeProxyReplacementOnStatusUpdate st r =
      { r with KubeProxyReplacement := (kubeProxyReplacementOnStatusUpdate st r).KubeProxyReplacement })
    ∧
    (authCertProviderOnStatusUpdate st r =
      { r with AuthCertificateProvider := (authCertProviderOnStatusUpdate st r).AuthCertificateProvider })
    ∧
    (cniConfigOnStatusUpdate st r =
      { r with CniFile := (cniConfigOnStatusUpdate st r).CniFile })
    ∧
    (∀ c, r.Cluster = some c →
      (clusterOnStatusUpdate st r).Cluster = r.Cluster ∨
        ∃ c', (clusterOnStatusUpdate st r).Cluster = some c' ∧
          c'.CiliumHealth = c.CiliumHealth)
    ∧
    (∀ c c', r.Cluster = some c →
      (ciliumHealthOnStatusUpdate e st r).Cluster = some c' → c'.Self = c.Self) :=
  ⟨kvstore_writes_only_Kvstore st r,
   kubernetes_writes_only_Kubernetes st r,
   ipam_writes_only_Ipam st r,
   nodeMonitor_writes_only_NodeMonitor st r,
   cluster_writes_only_Cluster st r,
   ciliumHealth_writes_only_Cluster e st r,
   l7Proxy_writes_only_Proxy st r,
   controllers_writes_only_Controllers st r,
   clustermesh_writes_only_ClusterMesh st r,
   hubble_writes_only_Hubble st r,
   encryption_writes_only_Encryption st r,
   kubeProxyReplacement_writes_only_KubeProxyReplacement st r,
   authCertProvider_writes_only_AuthCertificateProvider st r,
   cniConfig_writes_only_CniFile st r,
   fun c hc => cluster_sink_preserves_CiliumHealth st r c hc,
   fun c c' hc h => ciliumHealth_sink_preserves_Self e st r c c' hc h⟩

/-- Witness for the amended C4: on a store whose Cluster names "me", the
cilium-health sink writes the CiliumHealth member and leaves Self at
"me". -/
theorem sink_field_ownership_amended_witness :
    (ciliumHealthOnStatusUpdate true
        { Data := .status { State := .ok, Msg := "healthy" }, Err := none }
        { models.StatusResponse.empty with
            Cluster := some { Self := "me", CiliumHealth := none } }).Cluster =
      some { Self := "me", CiliumHealth := some { State := .ok, Msg := "healthy" } }
    ∧
    (models.ClusterStatus.mk "me"
        (some { State := .ok, Msg := "healthy" })).Self =
      (models.ClusterStatus.mk "me" none).Self :=
  ⟨rfl,
   (sink_field_ownership_amended true
      { Data := .status { State := .ok, Msg := "healthy" }, Err := none }
      { models.StatusResponse.empty with
          Cluster := some { Self := "me", CiliumHealth := none } }).2.2.2.2.2.2.2.2.2.2.2.2.2.2.2
     { Self := "me", CiliumHealth := none }
     { Self := "me", CiliumHealth := some { State := .ok, Msg := "healthy" } }
     rfl rfl⟩

/-- C7: an errored probe result is captured as data. The sinks with an
error channel (kvstore, kubernetes, cilium-health) record a Failure status
carrying the error text into their field, while every no-error-channel
sink leaves the aggregate exactly unchanged on an errored result; in all
cases the sink is a total function of the result, so no error escapes the
collector. -/
theorem probe_error_captured_as_data (e : String) (d : StatusData)
    (r : models.StatusResponse) :
    (kvstoreOnStatusUpdate { Data := d, Err := some e } r).Kvstore =
      some { State := .failure, Msg := e }
    ∧
    (kubernetesOnStatusUpdate { Data := d, Err := some e } r).Kubernetes =
      some { State := .failure, Msg := e, K8sAPIVersions := [] }
    ∧
    (∃ c, (ciliumHealthOnStatusUpdate true { Data := d, Err := some e } r).Cluster =
        some c ∧ c.CiliumHealth = some { State := .failure, Msg := e })
    ∧
    ipamOnStatusUpdate { Data := d, Err := some e } r = r
    ∧
    nodeMonitorOnStatusUpdate { Data := d, Err := some e } r = r
    ∧
    clusterOnStatusUpdate { Data := d, Err := some e } r = r
    ∧
    l7ProxyOnStatusUpdate { Data := d, Err := some e } r = r
    ∧
    controllersOnStatusUpdate { Data := d, Err := some e } r = r
    ∧
    clustermeshOnStatusUpdate { Data := d, Err := some e } r = r
    ∧
    hubbleOnStatusUpdate { Data := d, Err := some e } r = r
    ∧
    encryptionOnStatusUpdate { Data := d, Err := some e } r = r
    ∧
    kubeProxyReplacementOnStatusUpdate { Data := d, Err := some e } r = r
    ∧
    authCertProviderOnStatusUpdate { Data := d, Err := some e } r = r
    ∧
    cniConfigOnStatusUpdate { Data := d, Err := some e } r = r := by
  refine ⟨rfl, rfl, ?_, rfl, rfl, rfl, rfl, rfl, rfl, rfl, rfl, rfl, rfl, rfl⟩
  cases hrc : r.Cluster with
  | none =>
    exact ⟨{ Self := "", CiliumHealth := some { State := .failure, Msg := e } },
      by simp [ciliumHealthOnStatusUpdate, hrc], rfl⟩
  | some c =>
    exact ⟨{ c with CiliumHealth := some { State := .failure, Msg := e } },
      by simp [ciliumHealthOnStatusUpdate, hrc], rfl⟩

/-- Counterexample for C10: a result whose Data is nil does NOT always
leave the field unchanged — the kvstore sink writes a Failure status when
the result carries an error, even though its Data is nil. -/
theorem kvstore_sink_writes_despite_nil_data :
    (kvstoreOnStatusUpdate { Data := .null, Err := some "boom" }
        models.StatusResponse.empty).Kvstore ≠
      models.StatusResponse.empty.Kvstore := by
  decide

/-- C10 amended: for every result carrying no error whose Data is nil or
not of the sink's expected concrete type, the sink leaves the aggregate
unchanged — except the cilium-health sink, which first allocates an empty
Cluster wrapper when none exists (leaving the CiliumHealth member unset)
and leaves the state exactly unchanged when a Cluster value is already
present; the disabled cilium-health sink is always the identity. Errored
results are instead recorded by the error-channel sinks (see the
counterexample). Every sink is a total function, so no payload causes a
panic. -/
theorem sink_mismatched_payload_no_write (d : StatusData) (r : models.StatusResponse) :
    ((∀ s, d ≠ .status s) →
      kvstoreOnStatusUpdate { Data := d, Err := none } r = r)
    ∧
    ((∀ s, d ≠ .k8sStatus s) →
      kubernetesOnStatusUpdate { Data := d, Err := none } r = r)
    ∧
    ((∀ s, d ≠ .ipamStatus s) →
      ipamOnStatusUpdate { Data := d, Err := none } r = r)
    ∧
    ((∀ s, d ≠ .monitorStatus s) →
      nodeMonitorOnStatusUpdate { Data := d, Err := none } r = r)
    ∧
    ((∀ s, d ≠ .clusterStatus s) →
      clusterOnStatusUpdate { Data := d, Err := none } r = r)
    ∧
    ((∀ s, d ≠ .status s) → r.Cluster = none →
      ciliumHealthOnStatusUpdate true { Data := d, Err := none } r =
        { r with Cluster := some { Self := "", CiliumHealth := none } })
    ∧
    ((∀ s, d ≠ .status s) → ∀ c, r.Cluster = some c →
      ciliumHealthOnStatusUpdate true { Data := d, Err := none } r = r)
    ∧
    (ciliumHealthOnStatusUpdate false { Data := d, Err := none } r = r)
    ∧
    ((∀ s, d ≠ .proxyStatus s) →
      l7ProxyOnStatusUpdate { Data := d, Err := none } r = r)
    ∧
    ((∀ cs, d ≠ .controllerStatuses cs) →
      controllersOnStatusUpdate { Data := d, Err := none } r = r)
    ∧
    ((∀ s, d ≠ .clusterMeshStatus s) →
      clustermeshOnStatusUpdate { Data := d, Err := none } r = r)
    ∧
    ((∀ s, d ≠ .hubbleStatus s) →
      hubbleOnStatusUpdate { Data := d, Err := none } r = r)
    ∧
    ((∀ s, d ≠ .encryptionStatus s) →
      encryptionOnStatusUpdate { Data := d, Err := none } r = r)
    ∧
    ((∀ s, d ≠ .kubeProxyReplacement s) →
      kubeProxyReplacementOnStatusUpdate { Data := d, Err := none } r = r)
    ∧
    ((∀ s, d ≠ .status s) →
      authCertProviderOnStatusUpdate { Data := d, Err := none } r = r)
    ∧
    ((∀ s, d ≠ .status s) →
      cniConfigOnStatusUpdate { Data := d, Err := none } r = r) := by
  refine ⟨?_, ?_, ?_, ?_, ?_, ?_, ?_, rfl, ?_, ?_, ?_, ?_, ?_, ?_, ?_, ?_⟩
  · intro h; cases d <;> first | rfl | exact absurd rfl (h _)
  · intro h; cases d <;> first | rfl | exact absurd rfl (h _)
  · intro h; cases d <;> first | rfl | exact absurd rfl (h _)
  · intro h; cases d <;> first | rfl | exact absurd rfl (h _)
  · intro h; cases d <;> first | rfl | exact absurd rfl (h _)
  · intro h hrc
    cases d <;> first | exact absurd rfl (h _) | simp [ciliumHealthOnStatusUpdate, hrc]
  · intro h c hc
    have hrw : ciliumHealthOnStatusUpdate true { Data := d, Err := none } r =
        { r with Cluster := some c } := by
      cases d <;> first | exact absurd rfl (h _) | simp [ciliumHealthOnStatusUpdate, hc]
    rw [hrw, ← hc]
  · intro h; cases d <;> first | rfl | exact absurd rfl (h _)
  · intro h; cases d <;> first | rfl | exact absurd rfl (h _)
  · intro h; cases d <;> first | rfl | exact absurd rfl (h _)
  · intro h; cases d <;> first | rfl | exact absurd rfl (h _)
  · intro h; cases d <;> first | rfl | exact absurd rfl (h _)
  · intro h; cases d <;> first | rfl | exact absurd rfl (h _)
  · intro h; cases d <;> first | rfl | exact absurd rfl (h _)
  · intro h; cases d <;> first | rfl | exact absurd rfl (h _)

/-- Witness for the amended C10: the kvstore sink ignores a non-errored
result carrying an IPAM payload. -/
theorem sink_mismatched_payload_no_write_witness :
    kvstoreOnStatusUpdate { Data := .ipamStatus (), Err := none }
        models.StatusResponse.empty =
      models.StatusResponse.empty :=
  (sink_mismatched_payload_no_write (.ipamStatus ()) models.StatusResponse.empty).1
    (fun s h => by cases h)

/-- Counterexample for C3: after every registered probe has completed its
first run-and-sink cycle (the condition under which WaitForFirstRun
returns), the ipam field can still be unset. Here every probe delivered a
well-typed success result except ipam, whose first result carried an
error: the ipam sink skips the write, so the Ipam field of the aggregate
is still none — not populated with a success or failure value. -/
theorem firstRun_ipam_error_leaves_field_unset :
    (applyFirstRun true
      { kvstore := { Data := .status { State := .ok, Msg := "" }, Err := none }
        kubernetes := { Data := .k8sStatus { State := .ok, Msg := "", K8sAPIVersions := [] }, Err := none }
        ipam := { Data := .null, Err := some "ipam probe failed" }
        nodeMonitor := { Data := .monitorStatus (), Err := none }
        cluster := { Data := .clusterStatus { Self := "node1", CiliumHealth := none }, Err := none }
        ciliumHealth := { Data := .status { State := .ok, Msg := "" }, Err := none }
        l7Proxy := { Data := .proxyStatus (), Err := none }
        controllers := { Data := .controllerStatuses [], Err := none }
        clustermesh := { Data := .clusterMeshStatus (), Err := none }
        hubble := { Data := .hubbleStatus (), Err := none }
        encryption := { Data := .encryptionStatus (), Err := none }
        kubeProxyReplacement := { Data := .kubeProxyReplacement (), Err := none }
        authCertProvider := { Data := .status { State := .ok, Msg := "" }, Err := none }
        cniConfig := { Data := .status { State := .ok, Msg := "" }, Err := none } }
      models.StatusResponse.empty).Ipam = none := by
  rfl

/-- C3 amended: the population guarantee holds for first-run results that
are non-errored and carry the sink's expected payload type (which is what
the registered probes' run functions produce on success): after one
run-and-sink cycle per probe over the empty store, every probe-owned
field of the aggregate is set. A sink that skips its write — a
no-error-channel sink receiving an errored result, or any sink receiving
a mistyped payload — instead leaves its field unset (see the
counterexample), so the unconditional claim fails. -/
theorem firstRun_populates_fields_for_welltyped_results (rs : FirstRunResults)
    (s1 : models.Status) (h1 : rs.kvstore = { Data := .status s1, Err := none })
    (s2 : models.K8sStatus) (h2 : rs.kubernetes = { Data := .k8sStatus s2, Err := none })
    (s3 : models.IPAMStatus) (h3 : rs.ipam = { Data := .ipamStatus s3, Err := none })
    (s4 : models.MonitorStatus) (h4 : rs.nodeMonitor = { Data := .monitorStatus s4, Err := none })
    (s5 : models.ClusterStatus) (h5 : rs.cluster = { Data := .clusterStatus s5, Err := none })
    (s6 : models.Status) (h6 : rs.ciliumHealth = { Data := .status s6, Err := none })
    (s7 : models.ProxyStatus) (h7 : rs.l7Proxy = { Data := .proxyStatus s7, Err := none })
    (s8 : List models.ControllerStatus) (h8 : rs.controllers = { Data := .controllerStatuses s8, Err := none })
    (s9 : models.ClusterMeshStatus) (h9 : rs.clustermesh = { Data := .clusterMeshStatus s9, Err := none })
    (s10 : models.HubbleStatus) (h10 : rs.hubble = { Data := .hubbleStatus s10, Err := none })
    (s11 : models.EncryptionStatus) (h11 : rs.encryption = { Data := .encryptionStatus s11, Err := none })
    (s12 : models.KubeProxyReplacementStatus) (h12 : rs.kubeProxyReplacement = { Data := .kubeProxyReplacement s12, Err := none })
    (s13 : models.Status) (h13 : rs.authCertProvider = { Data := .status s13, Err := none })
    (s14 : models.Status) (h14 : rs.cniConfig = { Data := .status s14, Err := none }) :
    (applyFirstRun true rs models.StatusResponse.empty).Kvstore = some s1
    ∧ (applyFirstRun true rs models.StatusResponse.empty).Kubernetes = some s2
    ∧ (applyFirstRun true rs models.StatusResponse.empty).Ipam = some s3
    ∧ (applyFirstRun true rs models.StatusResponse.empty).NodeMonitor = some s4
    ∧ (applyFirstRun true rs models.StatusResponse.empty).Cluster =
        some { Self := s5.Self, CiliumHealth := some s6 }
    ∧ (applyFirstRun true rs models.StatusResponse.empty).Proxy = some s7
    ∧ (applyFirstRun true rs models.StatusResponse.empty).Controllers = some s8
    ∧ (applyFirstRun true rs models.StatusResponse.empty).ClusterMesh = some s9
    ∧ (applyFirstRun true rs models.StatusResponse.empty).Hubble = some s10
    ∧ (applyFirstRun true rs models.StatusResponse.empty).Encryption = some s11
    ∧ (applyFirstRun true rs models.StatusResponse.empty).KubeProxyReplacement = some s12
    ∧ (applyFirstRun true rs models.StatusResponse.empty).AuthCertificateProvider = some s13
    ∧ (applyFirstRun true rs models.StatusResponse.empty).CniFile = some s14 := by
  simp [applyFirstRun, h1, h2, h3, h4, h5, h6, h7, h8, h9, h10, h11, h12, h13, h14,
    kvstoreOnStatusUpdate, kubernetesOnStatusUpdate, ipamOnStatusUpdate,
    nodeMonitorOnStatusUpdate, clusterOnStatusUpdate, ciliumHealthOnStatusUpdate,
    l7ProxyOnStatusUpdate, controllersOnStatusUpdate, clustermeshOnStatusUpdate,
    hubbleOnStatusUpdate, encryptionOnStatusUpdate, kubeProxyReplacementOnStatusUpdate,
    authCertProviderOnStatusUpdate, cniConfigOnStatusUpdate,
    models.StatusResponse.empty]

/-- Witness for the amended C3: one concrete well-typed success result per
probe populates every probe-owned field. -/
theorem firstRun_populates_fields_for_welltyped_results_witness :
    (applyFirstRun true
      { kvstore := { Data := .status { State := .ok, Msg := "" }, Err := none }
        kubernetes := { Data := .k8sStatus { State := .ok, Msg := "", K8sAPIVersions := [] }, Err := none }
        ipam := { Data := .ipamStatus (), Err := none }
        nodeMonitor := { Data := .monitorStatus (), Err := none }
        cluster := { Data := .clusterStatus { Self := "node1", CiliumHealth := none }, Err := none }
        ciliumHealth := { Data := .status { State := .ok, Msg := "h" }, Err := none }
        l7Proxy := { Data := .proxyStatus (), Err := none }
        controllers := { Data := .controllerStatuses [], Err := none }
        clustermesh := { Data := .clusterMeshStatus (), Err := none }
        hubble := { Data := .hubbleStatus (), Err := none }
        encryption := { Data := .encryptionStatus (), Err := none }
        kubeProxyReplacement := { Data := .kubeProxyReplacement (), Err := none }
        authCertProvider := { Data := .status { State := .ok, Msg := "" }, Err := none }
        cniConfig := { Data := .status { State := .ok, Msg := "" }, Err := none } }
      models.StatusResponse.empty).Ipam = some () :=
  (firstRun_populates_fields_for_welltyped_results
    { kvstore := { Data := .status { State := .ok, Msg := "" }, Err := none }
      kubernetes := { Data := .k8sStatus { State := .ok, Msg := "", K8sAPIVersions := [] }, Err := none }
      ipam := { Data := .ipamStatus (), Err := none }
      nodeMonitor := { Data := .monitorStatus (), Err := none }
      cluster := { Data := .clusterStatus { Self := "node1", CiliumHealth := none }, Err := none }
      ciliumHealth := { Data := .status { State := .ok, Msg := "h" }, Err := none }
      l7Proxy := { Data := .proxyStatus (), Err := none }
      controllers := { Data := .controllerStatuses [], Err := none }
      clustermesh := { Data := .clusterMeshStatus (), Err := none }
      hubble := { Data := .hubbleStatus (), Err := none }
      encryption := { Data := .encryptionStatus (), Err := none }
      kubeProxyReplacement := { Data := .kubeProxyReplacement (), Err := none }
      authCertProvider := { Data := .status { State := .ok, Msg := "" }, Err := none }
      cniConfig := { Data := .status { State := .ok, Msg := "" }, Err := none } }
    { State := .ok, Msg := "" } rfl
    { State := .ok, Msg := "", K8sAPIVersions := [] } rfl
    () rfl () rfl
    { Self := "node1", CiliumHealth := none } rfl
    { State := .ok, Msg := "h" } rfl
    () rfl [] rfl () rfl () rfl () rfl () rfl
    { State := .ok, Msg := "" } rfl
    { State := .ok, Msg := "" } rfl).2.2.1
